import Mathlib

/-!
Shallow embedding of the eviction coordinator (`memory_manager.py`) and the
background resource sampler (`retrieval_monitor.py`).

External collaborators (`psutil`, the `Files` catalog, `VECTOR_DB_CLIENT`,
`Storage`) are modelled as explicit inputs: a snapshot of the psutil virtual
memory statistics, the catalog read result, and a `World` of call outcomes for
the per-call delete/query operations.  Each Python call that may raise is
modelled as an `Except Unit` value; a `try/except` block in the source
corresponds to matching on that value and continuing on `.error`.  Delete and
query calls actually attempted by the code are recorded in a `DeleteEvent`
trace so that claims about which calls are issued can be stated.
-/

/-- Snapshot of `psutil.virtual_memory()`: the fields read by the code.
`percent` is psutil's system memory percentage (0–100); `cached`, `buffers`
and `total` are byte counts. -/
structure VirtualMemory where
  percent : ℚ
  cached : ℚ
  buffers : ℚ
  total : ℚ
deriving DecidableEq, Repr

/-- `MemoryManager.get_memory_usage`: returns
`psutil.virtual_memory().percent / 100.0 * 100`. -/
def get_memory_usage (vm : VirtualMemory) : ℚ :=
  vm.percent / 100 * 100

/-- `MemoryManager.get_cache_usage`: returns
`(memory_info.cached + memory_info.buffers) / memory_info.total`. -/
def get_cache_usage (vm : VirtualMemory) : ℚ :=
  (vm.cached + vm.buffers) / vm.total

/-- One catalog file record, with exactly the fields the manager reads and the
fields of the dictionaries `get_oldest_files` builds: `id`, `filename`,
`created_at`, `path`, and `meta.get("collection_name")`.  `path` and
`collection_name` are optional (`None` in Python). -/
structure FileRecord where
  id : String
  filename : String
  created_at : Int
  path : Option String
  collection_name : Option String
deriving DecidableEq, Repr

/-- Python list slicing `xs[:limit]` for an `int` limit: a nonnegative limit
takes the first `limit` elements; a negative limit drops the last `|limit|`
elements (clamping at the empty list). -/
def pySlice {α : Type} (xs : List α) (limit : Int) : List α :=
  if 0 ≤ limit then xs.take limit.toNat
  else xs.take (xs.length - (-limit).toNat)

/-- `sorted(files, key=lambda x: x.created_at)`: Python's stable sort by the
`created_at` key, embedded as a stable merge sort. -/
def sortedByCreatedAt (files : List FileRecord) : List FileRecord :=
  files.mergeSort (fun a b => decide (a.created_at ≤ b.created_at))

/-- `MemoryManager.get_oldest_files`.  The catalog read `Files.get_files()` is
the input: `.error` models the read raising (caught, logged, `[]` returned).
On success the code returns `[]` for an empty catalog, else the sorted list
sliced to `limit`. -/
def get_oldest_files (catalog : Except Unit (List FileRecord)) (limit : Int) :
    List FileRecord :=
  match catalog with
  | .error _ => []
  | .ok files =>
    if files.isEmpty then []
    else pySlice (sortedByCreatedAt files) limit

/-- Result object of `VECTOR_DB_CLIENT.get(collection_name=...)`: a
`documents` field holding batches of document texts; the clients return the
collection's remaining membership as the first (only) batch. -/
structure GetResult where
  documents : List (List String)
deriving DecidableEq, Repr

/-- The emptiness test `not result or not result.documents or
not result.documents[0]` applied to the (possibly `None`, i.e. falsy)
query result. -/
def resultEmptyCheck : Option GetResult → Bool
  | none => true
  | some r =>
    match r.documents with
    | [] => true
    | d :: _ => d.isEmpty

/-- Delete/query calls the manager can issue against its three stores; the
cascade records the ones it actually attempts, in order. -/
inductive DeleteEvent where
  | vdbDelete (collection : String) (file_id : String)
  | vdbGet (collection : String)
  | vdbDeleteCollection (collection : String)
  | storageDeleteFile (path : String)
  | filesDeleteById (file_id : String)
deriving DecidableEq, Repr

/-- Outcomes of the external store calls during one pass: for each call,
`.ok` is a normal return and `.error` models the call raising an exception. -/
structure World where
  has_collection : String → Except Unit Bool
  vdb_delete : String → String → Except Unit Unit
  vdb_get : String → Except Unit (Option GetResult)
  delete_collection : String → Except Unit Unit
  storage_delete_file : String → Except Unit Unit
  delete_file_by_id : String → Except Unit Unit

/-- Step 1 of the cascade in `cleanup_file_and_vectors` (the vector-database
block): one `try/except` wraps `has_collection`, the document delete, the
membership query and the collection delete, so a raise at any of these calls
skips the remainder of the block, and the collection delete is reached only
when the preceding query returned and `resultEmptyCheck` passed.  Yields the
calls attempted, in order. -/
def vector_cleanup_calls (w : World) (rec : FileRecord) : List DeleteEvent :=
  match rec.collection_name with
  | none => []
  | some c =>
    match w.has_collection c with
    | .error _ => []
    | .ok false => []
    | .ok true =>
      match w.vdb_delete c rec.id with
      | .error _ => [.vdbDelete c rec.id]
      | .ok _ =>
        match w.vdb_get c with
        | .error _ => [.vdbDelete c rec.id, .vdbGet c]
        | .ok result =>
          if resultEmptyCheck result then
            [.vdbDelete c rec.id, .vdbGet c, .vdbDeleteCollection c]
          else
            [.vdbDelete c rec.id, .vdbGet c]

/-- Step 2 of the cascade (the physical-file block): `Storage.delete_file` is
attempted when a path is present; its own `try/except` absorbs a raise. -/
def storage_cleanup_calls (rec : FileRecord) : List DeleteEvent :=
  match rec.path with
  | none => []
  | some p => [.storageDeleteFile p]

/-- `MemoryManager.cleanup_file_and_vectors`: cascades deletion for one
record and returns the reported boolean together with the trace of store
calls attempted.  Steps 1 and 2 each absorb their own failures, so
`Files.delete_file_by_id` (step 3) is always reached; it is guarded only by
the outer `try`, whose `except` returns `False`, so the reported boolean is
exactly whether that catalog delete returned normally. -/
def cleanup_file_and_vectors (w : World) (rec : FileRecord) :
    Bool × List DeleteEvent :=
  ((match w.delete_file_by_id rec.id with
    | .ok _ => true
    | .error _ => false),
    vector_cleanup_calls w rec ++ storage_cleanup_calls rec ++
      [.filesDeleteById rec.id])

/-- The per-record loop of `perform_memory_cleanup`: run the cascade over each
selected record, counting the successes and concatenating the call traces. -/
def cleanup_batch (w : World) : List FileRecord → Nat × List DeleteEvent
  | [] => (0, [])
  | r :: rs =>
    let one := cleanup_file_and_vectors w r
    let rest := cleanup_batch w rs
    ((if one.1 then rest.1 + 1 else rest.1), one.2 ++ rest.2)

/-- Cleanup statistics dictionary returned by `perform_memory_cleanup`. -/
structure CleanupReport where
  cleaned_files : Nat
  memory_before : ℚ
  memory_after : ℚ
  cache_before : ℚ
  cache_after : ℚ
  freed_memory : ℚ
deriving DecidableEq, Repr

/-- `MemoryManager.perform_memory_cleanup`: measures pressure, selects the
oldest records, cascades over them, and reports.  `gc.collect`/`sync` and
`time.sleep(2)` issue no store calls; the psutil snapshot is held fixed over
the call, so the closing measurements re-read the same snapshot. -/
def perform_memory_cleanup (vm : VirtualMemory)
    (catalog : Except Unit (List FileRecord)) (w : World)
    (cleanup_count : Int) : CleanupReport × List DeleteEvent :=
  let start_memory := get_memory_usage vm
  let start_cache := get_cache_usage vm
  let oldest_files := get_oldest_files catalog cleanup_count
  if oldest_files.isEmpty then
    (⟨0, start_memory, start_memory, start_cache, start_cache, 0⟩, [])
  else
    let batch := cleanup_batch w oldest_files
    let end_memory := get_memory_usage vm
    let end_cache := get_cache_usage vm
    (⟨batch.1, start_memory, end_memory, start_cache, end_cache,
      start_memory - end_memory⟩, batch.2)

/-- Python `int()` applied to a rational: truncation toward zero. -/
def pyInt (q : ℚ) : Int :=
  if 0 ≤ q then ⌊q⌋ else ⌈q⌉

/-- `MemoryManager.check_and_cleanup_memory`.  The psutil snapshot input is
`Except`-valued: `.error` models `psutil.virtual_memory()` raising, which no
handler in the source catches, so it propagates as the result.  Returns the
Python return value (`None` or the statistics dictionary) paired with the
trace of store calls issued. -/
def check_and_cleanup_memory (virtual_memory : Except Unit VirtualMemory)
    (memory_threshold : ℚ) (catalog : Except Unit (List FileRecord))
    (w : World) : Except Unit (Option CleanupReport × List DeleteEvent) :=
  match virtual_memory with
  | .error e => .error e
  | .ok vm =>
    let current_memory := get_memory_usage vm
    let current_cache := get_cache_usage vm
    if current_memory > memory_threshold ∨ current_cache > memory_threshold then
      let excess_memory := max (current_memory - memory_threshold)
        (current_cache - memory_threshold)
      let cleanup_count := max 1 (pyInt (excess_memory * 20))
      let result := perform_memory_cleanup vm catalog w cleanup_count
      .ok (some result.1, result.2)
    else
      .ok (none, [])

/-- Severity of a log record emitted by the sampler loop. -/
inductive LogLevel where
  | debug
  | info
  | warning
  | error
deriving DecidableEq, Repr

/-- Latest-sample snapshot stored in `CloudResourceMonitor.stats`. -/
structure MonitorStats where
  memory_mb : ℚ
  thread_count : Nat
  timestamp : ℚ
deriving DecidableEq, Repr

/-- One cycle's raw measurements: `psutil.Process().memory_info().rss`,
`threading.active_count()`, and `time.time()`. -/
structure Measurement where
  rss : ℚ
  active_count : Nat
  now : ℚ
deriving DecidableEq, Repr

/-- Mutable state of `CloudResourceMonitor`: the `monitoring` flag and the
latest-sample snapshot (`none` before the first successful cycle). -/
structure MonitorState where
  monitoring : Bool
  stats : Option MonitorStats
deriving DecidableEq, Repr

/-- One iteration of `CloudResourceMonitor._monitor_loop`'s `while` body:
given the cycle's measurement outcome (`.error` models the measurement
raising), produce the new state, the sleep interval in seconds, and the log
records emitted.  A successful cycle converts rss to MB, emits the high-usage
warnings, publishes the sample and sleeps 30; a failed cycle is caught by the
`except`, logs at error level, leaves the state untouched and sleeps 60. -/
def monitor_step (s : MonitorState) (m : Except Unit Measurement) :
    MonitorState × ℚ × List LogLevel :=
  match m with
  | .ok meas =>
    let memory_mb := meas.rss / 1024 / 1024
    let warns := (if memory_mb > 1000 then [LogLevel.warning] else []) ++
      (if meas.active_count > 15 then [LogLevel.warning] else [])
    (⟨s.monitoring, some ⟨memory_mb, meas.active_count, meas.now⟩⟩, 30, warns)
  | .error _ => (s, 60, [LogLevel.error])

/-- `CloudResourceMonitor._monitor_loop` run over a finite stream of cycle
measurement outcomes: while `monitoring` holds, fold `monitor_step` over the
stream, collecting the sleep intervals and the log records. -/
def monitor_loop (s : MonitorState) :
    List (Except Unit Measurement) → MonitorState × List ℚ × List LogLevel
  | [] => (s, [], [])
  | m :: ms =>
    if s.monitoring then
      let step := monitor_step s m
      let rest := monitor_loop step.1 ms
      (rest.1, step.2.1 :: rest.2.1, step.2.2 ++ rest.2.2)
    else (s, [], [])

/-- Concrete store outcomes where every call returns normally and the
membership query reports an empty first batch. -/
def allOkWorld : World :=
  ⟨fun _ => .ok true, fun _ _ => .ok (), fun _ => .ok (some ⟨[[]]⟩),
    fun _ => .ok (), fun _ => .ok (), fun _ => .ok ()⟩

/-- Concrete store outcomes where the vector-document delete raises and every
other call returns normally. -/
def vdbDeleteRaisesWorld : World :=
  ⟨fun _ => .ok true, fun _ _ => .error (), fun _ => .ok (some ⟨[[]]⟩),
    fun _ => .ok (), fun _ => .ok (), fun _ => .ok ()⟩

/-- Concrete catalog record with no dependent stores. -/
def recA : FileRecord := ⟨"a", "a.txt", 1, none, none⟩

/-- Concrete catalog record with a blob path and a vector collection. -/
def recB : FileRecord := ⟨"b", "b.txt", 2, some "files/b", some "col-b"⟩

/-- Truncation toward zero agrees with the floor on nonnegative rationals. -/
theorem pyInt_eq_floor (q : ℚ) (h : 0 ≤ q) : pyInt q = ⌊q⌋ := by
  simp [pyInt, h]

/-- The stable sort used by `get_oldest_files` yields a list that is sorted
(non-strictly ascending) by `created_at`. -/
theorem sortedByCreatedAt_pairwise (files : List FileRecord) :
    (sortedByCreatedAt files).Pairwise
      (fun a b => a.created_at ≤ b.created_at) := by
  have h := @List.sorted_mergeSort FileRecord
    (fun a b => decide (a.created_at ≤ b.created_at))
    (fun a b c h1 h2 => by
      simp only [decide_eq_true_eq] at *
      omega)
    (fun a b => by
      simp only [Bool.or_eq_true, decide_eq_true_eq]
      exact Int.le_total _ _) files
  exact h.imp (fun hab => by simpa using hab)

/-- Behaviour of `get_oldest_files` on a successful catalog read and a
nonnegative limit: the sorted list truncated to `limit` records. -/
theorem get_oldest_files_ok_nonneg (files : List FileRecord) (n : Int)
    (hn : 0 ≤ n) :
    get_oldest_files (.ok files) n = (sortedByCreatedAt files).take n.toNat := by
  cases files with
  | nil => simp [get_oldest_files, sortedByCreatedAt]
  | cons f fs => simp [get_oldest_files, pySlice, hn]

/-- C1: the claim states that `get_memory_usage` yields a fraction in
[0.0, 1.0] (system usage over total); on the psutil snapshot
`percent = 45.0` the code returns `percent / 100.0 * 100 = 45.0`, which
exceeds 1.0 — the `/ 100.0` is cancelled by the stray `* 100`, so the value
is the raw percentage, while `get_cache_usage` on the same snapshot does
return a fraction in [0.0, 1.0]. -/
theorem C1_get_memory_usage_exceeds_one :
    get_memory_usage ⟨45, 10, 5, 100⟩ = 45 ∧
      ¬ get_memory_usage ⟨45, 10, 5, 100⟩ ≤ 1 ∧
      0 ≤ get_cache_usage ⟨45, 10, 5, 100⟩ ∧
      get_cache_usage ⟨45, 10, 5, 100⟩ ≤ 1 := by
  refine ⟨by norm_num [get_memory_usage], by norm_num [get_memory_usage],
    by norm_num [get_cache_usage], by norm_num [get_cache_usage]⟩

/-- C2: for every store-outcome assignment and every record, the cascade
always attempts the catalog delete (`Files.delete_file_by_id`), and it
reports `true` exactly when that catalog delete returns normally — so prior
step failures never change the reported outcome, and catalog-delete success
is sufficient for reporting `true`. -/
theorem C2_catalog_delete_always_attempted_and_decides_result (w : World)
    (rec : FileRecord) :
    DeleteEvent.filesDeleteById rec.id ∈ (cleanup_file_and_vectors w rec).2 ∧
      ((cleanup_file_and_vectors w rec).1 = true ↔
        w.delete_file_by_id rec.id = .ok ()) := by
  constructor
  · simp [cleanup_file_and_vectors]
  · cases h : w.delete_file_by_id rec.id with
    | ok u => cases u; simp [cleanup_file_and_vectors, h]
    | error e => cases e; simp [cleanup_file_and_vectors, h]

/-- C8: a sampler cycle whose measurement raises logs one error-level record,
sleeps the longer 60-second backoff instead of 30, leaves the latest-sample
snapshot and the `monitoring` flag untouched, and the loop goes on to process
the remaining cycles from the unchanged state. -/
theorem C8_failed_cycle_behavior (st : Option MonitorStats)
    (ms : List (Except Unit Measurement)) :
    monitor_loop ⟨true, st⟩ (.error () :: ms) =
      ((monitor_loop ⟨true, st⟩ ms).1,
        60 :: (monitor_loop ⟨true, st⟩ ms).2.1,
        LogLevel.error :: (monitor_loop ⟨true, st⟩ ms).2.2) := by
  simp [monitor_loop, monitor_step]

/-- C10: a nonpositive limit does not select the oldest records:
`get_oldest_files` with limit `0` returns the empty list even on a non-empty
catalog, and with limit `-k` (for `k > 0`) it returns everything except the
`k` newest records (Python slice semantics over the ascending-sorted list),
raising nothing. -/
theorem C10_nonpositive_limit_slice (files : List FileRecord) (k : Nat)
    (hne : files ≠ []) (hk : 0 < k) :
    get_oldest_files (.ok files) 0 = [] ∧
      get_oldest_files (.ok files) (-(k : Int)) =
        (sortedByCreatedAt files).take (files.length - k) := by
  cases files with
  | nil => exact absurd rfl hne
  | cons f fs =>
    constructor
    · simp [get_oldest_files, pySlice]
    · have hneg : ¬ (0 : Int) ≤ -(k : Int) := by omega
      simp [get_oldest_files, pySlice, hneg, sortedByCreatedAt]

/-- C10 witness: on the two-record catalog `[recB, recA]`, limit `0` yields
`[]` and limit `-1` yields the sorted list minus its newest record. -/
theorem C10_slice_witness :
    get_oldest_files (.ok [recB, recA]) 0 = [] ∧
      get_oldest_files (.ok [recB, recA]) (-((1 : Nat) : Int)) =
        (sortedByCreatedAt [recB, recA]).take ([recB, recA].length - 1) :=
  C10_nonpositive_limit_slice [recB, recA] 1 (by simp) (by omega)

/-- C7 counterexample: the claim says a transient measurement failure must
not fail the caller; but when `psutil.virtual_memory()` raises, no handler in
`check_and_cleanup_memory` catches it, so the call surfaces the exception. -/
theorem C7_counterexample_measurement_error_propagates :
    check_and_cleanup_memory (.error ()) (7/10) (.ok [recA]) allOkWorld =
      .error () := rfl

/-- C7 amended: a measurement failure in the pressure read propagates to the
caller of `check_and_cleanup_memory` (the code has no handler around the
psutil reads), while a cycle whose measurements succeed surfaces no
exception — catalog-read failures and per-record store failures are all
absorbed internally. -/
theorem C7_amended_propagation (vm : VirtualMemory) (threshold : ℚ)
    (catalog : Except Unit (List FileRecord)) (w : World) :
    check_and_cleanup_memory (.error ()) threshold catalog w = .error () ∧
      check_and_cleanup_memory (.ok vm) threshold catalog w ≠ .error () := by
  refine ⟨rfl, ?_⟩
  by_cases hc : get_memory_usage vm > threshold ∨ get_cache_usage vm > threshold
  · simp [check_and_cleanup_memory, if_pos hc]
  · simp [check_and_cleanup_memory, if_neg hc]

/-- C4: when neither the memory reading nor the cache reading strictly
exceeds the threshold — including a reading exactly equal to it —
`check_and_cleanup_memory` returns `None` and issues no store calls. -/
theorem C4_below_threshold_returns_none (vm : VirtualMemory) (threshold : ℚ)
    (catalog : Except Unit (List FileRecord)) (w : World)
    (hmem : ¬ get_memory_usage vm > threshold)
    (hcache : ¬ get_cache_usage vm > threshold) :
    check_and_cleanup_memory (.ok vm) threshold catalog w = .ok (none, []) := by
  simp [check_and_cleanup_memory, hmem, hcache]

/-- C4 witness: at the boundary reading 0.70 with threshold 0.70 and an
empty cache reading, the check does nothing. -/
theorem C4_boundary_witness :
    check_and_cleanup_memory (.ok ⟨7/10, 0, 0, 1⟩) (7/10) (.ok [recA])
      allOkWorld = .ok (none, []) :=
  C4_below_threshold_returns_none ⟨7/10, 0, 0, 1⟩ (7/10) (.ok [recA])
    allOkWorld (by norm_num [get_memory_usage])
    (by norm_num [get_cache_usage])

/-- C3: once the check triggers — some reading strictly exceeds the
threshold — the count handed to the cleanup pass is exactly
`max(1, floor(observedExcess * 20))` with
`observedExcess = max(mem − threshold, cache − threshold)` (Python's `int()`
truncation coincides with the floor because the excess is positive), and
that count is at least 1. -/
theorem C3_victim_count_formula (vm : VirtualMemory) (threshold : ℚ)
    (catalog : Except Unit (List FileRecord)) (w : World)
    (h : get_memory_usage vm > threshold ∨ get_cache_usage vm > threshold) :
    check_and_cleanup_memory (.ok vm) threshold catalog w =
      .ok (some (perform_memory_cleanup vm catalog w
          (max 1 ⌊(max (get_memory_usage vm - threshold)
            (get_cache_usage vm - threshold)) * 20⌋)).1,
        (perform_memory_cleanup vm catalog w
          (max 1 ⌊(max (get_memory_usage vm - threshold)
            (get_cache_usage vm - threshold)) * 20⌋)).2) ∧
      1 ≤ max 1 ⌊(max (get_memory_usage vm - threshold)
        (get_cache_usage vm - threshold)) * 20⌋ := by
  have hex : (0 : ℚ) ≤ (max (get_memory_usage vm - threshold)
      (get_cache_usage vm - threshold)) * 20 := by
    rcases h with h | h
    · have hm := le_max_left (get_memory_usage vm - threshold)
        (get_cache_usage vm - threshold)
      nlinarith
    · have hm := le_max_right (get_memory_usage vm - threshold)
        (get_cache_usage vm - threshold)
      nlinarith
  refine ⟨?_, le_max_left _ _⟩
  simp only [check_and_cleanup_memory, if_pos h, pyInt_eq_floor _ hex]

/-- C3 witness: with readings 0.85 and 0.0 against threshold 0.70, the check
triggers and passes `max(1, floor(0.15 * 20)) = 3` records to the cleanup
pass. -/
theorem C3_witness_values :
    check_and_cleanup_memory (.ok ⟨17/20, 0, 0, 1⟩) (7/10) (.ok [recB, recA])
        allOkWorld =
      .ok (some (perform_memory_cleanup ⟨17/20, 0, 0, 1⟩ (.ok [recB, recA])
          allOkWorld
          (max 1 ⌊(max (get_memory_usage ⟨17/20, 0, 0, 1⟩ - 7/10)
            (get_cache_usage ⟨17/20, 0, 0, 1⟩ - 7/10)) * 20⌋)).1,
        (perform_memory_cleanup ⟨17/20, 0, 0, 1⟩ (.ok [recB, recA]) allOkWorld
          (max 1 ⌊(max (get_memory_usage ⟨17/20, 0, 0, 1⟩ - 7/10)
            (get_cache_usage ⟨17/20, 0, 0, 1⟩ - 7/10)) * 20⌋)).2) ∧
      1 ≤ max 1 ⌊(max (get_memory_usage ⟨17/20, 0, 0, 1⟩ - 7/10)
        (get_cache_usage ⟨17/20, 0, 0, 1⟩ - 7/10)) * 20⌋ :=
  C3_victim_count_formula ⟨17/20, 0, 0, 1⟩ (7/10) (.ok [recB, recA])
    allOkWorld (Or.inl (by norm_num [get_memory_usage]))

/-- C5 counterexample: the claim says the call returns the empty sequence
when the catalog has fewer than `n` records; on a one-record catalog with
`n = 10` the code returns that record, not the empty list. -/
theorem C5_counterexample_fewer_records :
    get_oldest_files (.ok [recA]) 10 = [recA] ∧
      get_oldest_files (.ok [recA]) 10 ≠ [] ∧ [recA].length < 10 := by
  refine ⟨?_, ?_, by simp⟩
  · simp [get_oldest_files, sortedByCreatedAt, pySlice]
  · simp [get_oldest_files, sortedByCreatedAt, pySlice]

/-- C5 amended: for every catalog state and every nonnegative limit `n`,
`get_oldest_files` returns the records sorted ascending by `created_at`
truncated to at most `n` of the oldest (so a catalog with fewer than `n`
records yields all of them, sorted), it returns the empty sequence when the
catalog is empty or the catalog read fails, and it never raises. -/
theorem C5_amended_sorted_truncated (catalog : Except Unit (List FileRecord))
    (n : Int) (hn : 0 ≤ n) :
    (get_oldest_files catalog n).Pairwise
        (fun a b => a.created_at ≤ b.created_at) ∧
      (get_oldest_files catalog n).length ≤ n.toNat ∧
      (∀ files, catalog = .ok files →
        get_oldest_files catalog n = (sortedByCreatedAt files).take n.toNat) ∧
      (∀ e, catalog = .error e → get_oldest_files catalog n = []) := by
  cases catalog with
  | error e =>
    refine ⟨by simp [get_oldest_files], by simp [get_oldest_files], ?_, ?_⟩
    · intro files h
      exact Except.noConfusion h
    · intro e2 h
      simp [get_oldest_files]
  | ok files =>
    have heq := get_oldest_files_ok_nonneg files n hn
    refine ⟨?_, ?_, ?_, ?_⟩
    · rw [heq]
      exact List.Pairwise.sublist (List.take_sublist _ _)
        (sortedByCreatedAt_pairwise files)
    · rw [heq]
      exact List.length_take_le _ _
    · intro files2 h
      injection h with h2
      subst h2
      exact heq
    · intro e h
      exact Except.noConfusion h

/-- C5 amended witness: on the two-record catalog `[recB, recA]` with limit
1, the returned list is sorted, has at most one record, and is the truncated
sorted catalog. -/
theorem C5_amended_witness :
    (get_oldest_files (.ok [recB, recA]) 1).Pairwise
        (fun a b => a.created_at ≤ b.created_at) ∧
      (get_oldest_files (.ok [recB, recA]) 1).length ≤ (1 : Int).toNat ∧
      (∀ files, (Except.ok [recB, recA] : Except Unit (List FileRecord)) =
          .ok files →
        get_oldest_files (.ok [recB, recA]) 1 =
          (sortedByCreatedAt files).take (1 : Int).toNat) ∧
      (∀ e, (Except.ok [recB, recA] : Except Unit (List FileRecord)) =
          .error e →
        get_oldest_files (.ok [recB, recA]) 1 = []) :=
  C5_amended_sorted_truncated (.ok [recB, recA]) 1 (by norm_num)

/-- Membership fact for the vector-database block: a collection-delete call
can appear among its attempted calls only when the membership query on that
collection returned normally and the code's emptiness test passed. -/
theorem vector_calls_collection_delete_implies_empty (w : World)
    (rec : FileRecord) (c : String) :
    DeleteEvent.vdbDeleteCollection c ∈ vector_cleanup_calls w rec →
      ∃ r, w.vdb_get c = .ok r ∧ resultEmptyCheck r = true := by
  intro h
  unfold vector_cleanup_calls at h
  split at h
  · simp at h
  · split at h
    · simp at h
    · simp at h
    · split at h
      · simp at h
      · split at h
        · simp at h
        · split at h
          · simp at h
            subst h
            exact ⟨_, by assumption, by assumption⟩
          · simp at h

/-- The physical-file block never attempts a collection delete. -/
theorem vdbDeleteCollection_not_mem_storage (rec : FileRecord) (c : String) :
    DeleteEvent.vdbDeleteCollection c ∉ storage_cleanup_calls rec := by
  unfold storage_cleanup_calls
  cases rec.path <;> simp

/-- C6: in every cascade, a collection delete is attempted only when the
membership query on that collection returned and the emptiness test on its
result passed; if the membership query returned remaining documents, the
collection delete is never attempted. -/
theorem C6_collection_delete_requires_empty (w : World) (rec : FileRecord)
    (c : String) :
    (DeleteEvent.vdbDeleteCollection c ∈ (cleanup_file_and_vectors w rec).2 →
      ∃ r, w.vdb_get c = .ok r ∧ resultEmptyCheck r = true) ∧
    (∀ r, w.vdb_get c = .ok r → resultEmptyCheck r = false →
      DeleteEvent.vdbDeleteCollection c ∉ (cleanup_file_and_vectors w rec).2) := by
  have key : DeleteEvent.vdbDeleteCollection c ∈
        (cleanup_file_and_vectors w rec).2 →
      ∃ r, w.vdb_get c = .ok r ∧ resultEmptyCheck r = true := by
    intro hmem
    simp only [cleanup_file_and_vectors, List.mem_append,
      List.mem_singleton] at hmem
    rcases hmem with (h | h) | h
    · exact vector_calls_collection_delete_implies_empty w rec c h
    · exact absurd h (vdbDeleteCollection_not_mem_storage rec c)
    · exact DeleteEvent.noConfusion h
  refine ⟨key, ?_⟩
  intro r hget hck hmem
  obtain ⟨r2, hget2, hck2⟩ := key hmem
  rw [hget] at hget2
  injection hget2 with h2
  subst h2
  rw [hck] at hck2
  exact Bool.noConfusion hck2

/-- C6 witness: with all calls succeeding and the membership query reporting
an empty batch, the cascade on `recB` does attempt the collection delete, and
the theorem then yields the confirming query result. -/
theorem C6_collection_delete_witness :
    ∃ r, allOkWorld.vdb_get "col-b" = .ok r ∧ resultEmptyCheck r = true :=
  (C6_collection_delete_requires_empty allOkWorld recB "col-b").1 (by decide)

/-- C9: when a record has a collection reference, the collection exists, and
the vector-document delete raises, the shared handler of the vector block
skips both the membership query and the collection delete, while the blob
delete and the catalog delete are still attempted — the full call trace is
exactly those three calls. -/
theorem C9_shared_handler_skips_query_and_collection_delete (w : World)
    (rec : FileRecord) (c p : String) (hcn : rec.collection_name = some c)
    (hhc : w.has_collection c = .ok true)
    (hdel : w.vdb_delete c rec.id = .error ()) (hp : rec.path = some p) :
    (cleanup_file_and_vectors w rec).2 =
      [.vdbDelete c rec.id, .storageDeleteFile p, .filesDeleteById rec.id] := by
  simp [cleanup_file_and_vectors, vector_cleanup_calls, storage_cleanup_calls,
    hcn, hhc, hdel, hp]

/-- C9 witness: on `recB` with a raising vector-document delete, the attempted
calls are exactly the document delete, the blob delete and the catalog
delete. -/
theorem C9_skip_witness :
    (cleanup_file_and_vectors vdbDeleteRaisesWorld recB).2 =
      [.vdbDelete "col-b" recB.id, .storageDeleteFile "files/b",
        .filesDeleteById recB.id] :=
  C9_shared_handler_skips_query_and_collection_delete vdbDeleteRaisesWorld
    recB "col-b" "files/b" rfl rfl rfl rfl
